import Mathlib

/- A shallow embedding of the session-factory core of the UAF client library
   (src/uaf/client/sessions/sessionfactory.h).

   The template method SessionFactory::invokeRequest and the two overloads of
   storeRequestHandleIfNeeded are translated from the header.  The external
   collaborators (the invocation factory, the Session objects and their
   service entry points) are oracles supplied through an environment record
   Env, so every theorem about invokeRequest is quantified over their
   behaviour.  Bodies that are only declared in the header (releaseSession,
   getNewTransactionId) are modelled from the specification and say so in
   their doc comments.

   Machine integers (transaction ids, request handles, connection ids,
   activity counts) are modelled as Nat: all of them are unsigned counters in
   the source (Activity is a uint32_t), and none of the verified paths
   exercises wrap-around.  Statuses are modelled by their status code; per
   the uaf::Status surface used in the header, isNotGood is the negation of
   isGood. -/

namespace Uaf

abbrev TransactionId := Nat
abbrev RequestHandle := Nat
abbrev ClientConnectionId := Nat
abbrev SessionSettings := Nat
abbrev ServerUri := String

/-- Status codes appearing in sessionfactory.h (UnsupportedError at line 255,
ConnectionError at line 299), plus the release-underflow error surfaced by
releaseSession per its documentation, plus an arbitrary error family standing
for any other bad code an external collaborator may return. -/
inductive StatusCode where
  | Good
  | UnsupportedError
  | ConnectionError
  | ReleaseUnderflowError
  | OtherError (code : Nat)
deriving DecidableEq, Repr

def StatusCode.isGood : StatusCode → Bool
  | StatusCode.Good => true
  | _ => false

def StatusCode.isNotGood (s : StatusCode) : Bool := !s.isGood

/-- The transaction map (std::map<TransactionId, RequestHandle>) as a partial
function from ids to handles. -/
abbrev TransactionMap := TransactionId → Option RequestHandle

def mapInsert (m : TransactionMap) (t : TransactionId) (h : RequestHandle) : TransactionMap :=
  fun u => if u = t then some h else m u

def mapErase (m : TransactionMap) (t : TransactionId) : TransactionMap :=
  fun u => if u = t then none else m u

/-- The per-factory state relevant to transaction correlation: the id counter
transactionId_ and the map transactionMap_ (sessionfactory.h lines 523, 527). -/
structure FactoryState where
  transactionId_ : TransactionId
  transactionMap_ : TransactionMap

/-- Whether a request is a session-level request (uafc::BaseSessionRequest) or
a subscription-level one (uafc::BaseSubscriptionRequest); in the source this
distinction is made by overload resolution on storeRequestHandleIfNeeded. -/
inductive RequestKind where
  | session
  | subscription
deriving DecidableEq, Repr

/-- The part of a request that invokeRequest reads: its request handle, its
list of targets (contents abstracted to Nat) and its session/subscription
kind. -/
structure Request where
  requestHandle : RequestHandle
  targets : List Nat
  kind : RequestKind
deriving DecidableEq, Repr

/-- A service tag: the only attribute of _Service that drives control flow in
invokeRequest is the compile-time Boolean _Service::asynchronous. -/
structure Service where
  asynchronous : Bool
deriving DecidableEq, Repr

/-- The part of an invocation that invokeRequest manipulates: session
settings, the stamped transaction id (setTransactionId) and the copied
session information (setSessionInformation). -/
structure Invocation where
  sessionSettings : SessionSettings
  transactionId : Option TransactionId
  sessionInformation : Option Nat
deriving DecidableEq, Repr

/-- The part of a Session that invokeRequest reads. -/
structure Session where
  clientConnectionId : ClientConnectionId
  isConnected : Bool
  sessionInformation : Nat
deriving DecidableEq, Repr

/-- Modelled from the spec: the body of getNewTransactionId is declared in
the header (line 402) but implemented outside the provided sources; per the
specification it returns a monotonically increasing id never previously
returned, so it is modelled as returning the current counter value and
incrementing the counter. -/
def getNewTransactionId (st : FactoryState) : TransactionId × FactoryState :=
  (st.transactionId_, { st with transactionId_ := st.transactionId_ + 1 })

/-- Translation of the BaseSessionRequest overload of
SessionFactory::storeRequestHandleIfNeeded (sessionfactory.h lines 465-491):
for an asynchronous service, allocate a new transaction id and bind it to the
request handle; for a synchronous one do nothing.  The C++ leaves the output
transactionId uninitialized in the synchronous case; it is returned as 0
here, and every use in invokeRequest is guarded by the stored flag. -/
def storeRequestHandleIfNeeded (service : Service) (request : Request) (st : FactoryState) :
    Bool × TransactionId × FactoryState :=
  if service.asynchronous then
    let p := getNewTransactionId st
    (true, p.1,
      { p.2 with transactionMap_ := mapInsert p.2.transactionMap_ p.1 request.requestHandle })
  else
    (false, 0, st)

/-- Translation of the BaseSubscriptionRequest overload of
storeRequestHandleIfNeeded (sessionfactory.h lines 498-510): nothing to do,
no transaction id is assigned at the session level. -/
def storeRequestHandleIfNeededSubscription (service : Service) (request : Request)
    (st : FactoryState) : Bool × TransactionId × FactoryState :=
  (false, 0, st)

/-- Overload resolution on the static type of the request (BaseSessionRequest
vs BaseSubscriptionRequest) selecting which storeRequestHandleIfNeeded
overload invokeRequest calls at line 235. -/
def storeHandleDispatch (service : Service) (request : Request) (st : FactoryState) :
    Bool × TransactionId × FactoryState :=
  match request.kind with
  | RequestKind.session => storeRequestHandleIfNeeded service request st
  | RequestKind.subscription => storeRequestHandleIfNeededSubscription service request st

/-- Observable events of the per-invocation loop of invokeRequest, in program
order: entering the loop body for an invocation, stamping the transaction id
onto it, a successful session acquisition, forwarding the invocation to the
session service entry point, copying invocation data to the result, and
releasing the session. -/
inductive Event where
  | processed (serverUri : ServerUri)
  | stamped (serverUri : ServerUri) (transactionId : TransactionId)
  | acquired (serverUri : ServerUri)
  | forwarded (serverUri : ServerUri)
  | copied (serverUri : ServerUri)
  | released (serverUri : ServerUri)
deriving DecidableEq, Repr

/-- The behaviour of the external collaborators of invokeRequest for one
logical request: the outcome of InvocationFactory::create (its status and the
std::map of invocations as a key-ordered association list), of
acquireSession, of Session::invokeService, and of Invocation::copyToResult
(its status and the index/value writes it performs on result.targets). -/
structure Env where
  create : StatusCode × List (ServerUri × Invocation)
  acquireSession : ServerUri → SessionSettings → StatusCode × Session
  invokeService : ServerUri → Session → Invocation → StatusCode
  copyToResult : ServerUri → Invocation → StatusCode × List (Nat × Nat)

/-- invocation->setTransactionId(transactionId), performed only when a handle
was stored (sessionfactory.h lines 274-278). -/
def stampIfStored (handleStored : Bool) (tid : TransactionId) (inv : Invocation) : Invocation :=
  if handleStored then { inv with transactionId := some tid } else inv

/-- invocation->setSessionInformation(session->sessionInformation())
(sessionfactory.h line 289). -/
def withSessionInfo (sess : Session) (inv : Invocation) : Invocation :=
  { inv with sessionInformation := some sess.sessionInformation }

/-- Apply the index/value writes of Invocation::copyToResult to the result
target list; a write at an out-of-range index (which copyToResult never
produces, since the result was resized to the request size) leaves the list
unchanged, as List.set does. -/
def applyWrites (targets : List Nat) (writes : List (Nat × Nat)) : List Nat :=
  writes.foldl (fun ts w => ts.set w.1 w.2) targets

/-- One iteration of the per-invocation loop of invokeRequest
(sessionfactory.h lines 264-313), entered with a good running status.
Returns the status after the iteration, the updated result targets and the
events of this iteration in order. -/
def processOne (env : Env) (service : Service) (handleStored : Bool) (tid : TransactionId)
    (uri : ServerUri) (inv : Invocation) (targets : List Nat) :
    StatusCode × List Nat × List Event :=
  let inv1 := stampIfStored handleStored tid inv
  let evs0 := if handleStored
              then [Event.processed uri, Event.stamped uri tid]
              else [Event.processed uri]
  let acq := env.acquireSession uri inv1.sessionSettings
  if acq.1.isGood then
    let inv2 := withSessionInfo acq.2 inv1
    let evs1 := evs0 ++ [Event.acquired uri]
    if acq.2.isConnected && acq.1.isGood then
      let retInv := env.invokeService uri acq.2 inv2
      let evs2 := evs1 ++ [Event.forwarded uri]
      if !service.asynchronous && retInv.isGood then
        let cp := env.copyToResult uri inv2
        (cp.1, applyWrites targets cp.2, evs2 ++ [Event.copied uri, Event.released uri])
      else
        (retInv, targets, evs2 ++ [Event.released uri])
    else
      (StatusCode.ConnectionError, targets, evs1 ++ [Event.released uri])
  else
    (acq.1, targets, evs0)

/-- The per-invocation loop of invokeRequest (sessionfactory.h lines
264-313): iterate over the invocation list while the running status is good,
accumulating events. -/
def processInvocations (env : Env) (service : Service) (handleStored : Bool)
    (tid : TransactionId) :
    List (ServerUri × Invocation) → StatusCode → List Nat → List Event →
      StatusCode × List Nat × List Event
  | [], ret, targets, evs => (ret, targets, evs)
  | (uri, inv) :: rest, ret, targets, evs =>
    if ret.isGood then
      let out := processOne env service handleStored tid uri inv targets
      processInvocations env service handleStored tid rest out.1 out.2.1 (evs ++ out.2.2)
    else
      (ret, targets, evs)

/-- result.targets.resize(request.targets.size()) (sessionfactory.h line
231): keep the existing prefix and pad with default-constructed elements. -/
def resizeList (l : List Nat) (n : Nat) : List Nat :=
  l.take n ++ List.replicate (n - l.length) 0

/-- Everything invokeRequest produces: the returned Status, the final
result.targets, the event trace of the per-invocation loop, the final factory
state, and (for the theorems) whether a request handle was stored and under
which transaction id. -/
structure InvokeOutcome where
  ret : StatusCode
  resultTargets : List Nat
  events : List Event
  state : FactoryState
  handleStored : Bool
  transactionId : TransactionId

/-- Translation of SessionFactory::invokeRequest (sessionfactory.h lines
215-326): resize the result, store the request handle if the request is a
session-level request of an asynchronous service, build the invocations,
refuse asynchronous fan-out with UnsupportedError, run the per-invocation
loop while the status is good, and on overall failure erase the stored
transaction binding. -/
def invokeRequest (env : Env) (service : Service) (request : Request)
    (result0 : List Nat) (st : FactoryState) : InvokeOutcome :=
  let targets0 := resizeList result0 request.targets.length
  let store := storeHandleDispatch service request st
  let handleStored := store.1
  let transactionId := store.2.1
  let st1 := store.2.2
  let createStatus := env.create.1
  let invocations := env.create.2
  let ret0 := if createStatus.isGood = true ∧ service.asynchronous = true
                 ∧ 1 < invocations.length
              then StatusCode.UnsupportedError
              else createStatus
  let out := processInvocations env service handleStored transactionId invocations ret0 targets0 []
  let st2 := if out.1.isNotGood && handleStored
             then { st1 with transactionMap_ := mapErase st1.transactionMap_ transactionId }
             else st1
  { ret := out.1, resultTargets := out.2.1, events := out.2.2, state := st2,
    handleStored := handleStored, transactionId := transactionId }

/-- The part of the factory state that acquireSession / releaseSession
manipulate: which connection ids currently hold a session (sessionMap_) and
each session's activity count (activityMap_, a uint32_t in the source,
modelled as Nat). -/
structure SessionTable where
  sessionMap_ : ClientConnectionId → Bool
  activityMap_ : ClientConnectionId → Nat

/-- Modelled from the spec: the body of SessionFactory::releaseSession is
declared in the header (line 394) but implemented outside the provided
sources.  Per its documentation and the specification, release decrements
the session's activity count; a release of a session whose count is already
zero is reported as an error (release underflow) and the count is left at
zero rather than wrapped; when the count reaches zero and garbage collection
is allowed, the session is removed. -/
def releaseSession (tbl : SessionTable) (id : ClientConnectionId)
    (allowGarbageCollection : Bool) : StatusCode × SessionTable :=
  let a := tbl.activityMap_ id
  if a = 0 then
    (StatusCode.ReleaseUnderflowError, tbl)
  else
    let a1 := a - 1
    let tbl1 : SessionTable :=
      { sessionMap_ := fun i =>
          if i = id ∧ a1 = 0 ∧ allowGarbageCollection = true then false else tbl.sessionMap_ i,
        activityMap_ := fun i => if i = id then a1 else tbl.activityMap_ i }
    (StatusCode.Good, tbl1)

/- Helper lemmas shared by the claim theorems. -/

theorem isNotGood_eq (s : StatusCode) : s.isNotGood = !s.isGood := rfl

theorem isGood_unsupported : StatusCode.UnsupportedError.isGood = false := rfl

/-- Once the running status is not good, the loop does nothing more: the for
condition at sessionfactory.h line 265 is checked before every iteration. -/
theorem processInvocations_stops (env : Env) (service : Service) (handleStored : Bool)
    (tid : TransactionId) (l : List (ServerUri × Invocation)) (ret : StatusCode)
    (targets : List Nat) (evs : List Event) (h : ret.isGood = false) :
    processInvocations env service handleStored tid l ret targets evs = (ret, targets, evs) := by
  cases l with
  | nil => rfl
  | cons hd rest =>
    obtain ⟨uri, inv⟩ := hd
    simp [processInvocations, h]

theorem applyWrites_length (targets : List Nat) (writes : List (Nat × Nat)) :
    (applyWrites targets writes).length = targets.length := by
  induction writes generalizing targets with
  | nil => rfl
  | cons w ws ih =>
    simp only [applyWrites, List.foldl_cons] at *
    rw [ih]
    simp

theorem processOne_length (env : Env) (service : Service) (handleStored : Bool)
    (tid : TransactionId) (uri : ServerUri) (inv : Invocation) (targets : List Nat) :
    (processOne env service handleStored tid uri inv targets).2.1.length = targets.length := by
  unfold processOne
  dsimp only
  split_ifs <;> simp [applyWrites_length]

theorem processInvocations_length (env : Env) (service : Service) (handleStored : Bool)
    (tid : TransactionId) (l : List (ServerUri × Invocation)) (ret : StatusCode)
    (targets : List Nat) (evs : List Event) :
    (processInvocations env service handleStored tid l ret targets evs).2.1.length
      = targets.length := by
  induction l generalizing ret targets evs with
  | nil => rfl
  | cons hd rest ih =>
    obtain ⟨uri, inv⟩ := hd
    by_cases hg : ret.isGood = true
    · simp only [processInvocations, hg, if_true]
      rw [ih]
      exact processOne_length env service handleStored tid uri inv targets
    · have hg' : ret.isGood = false := by
        cases h : ret.isGood
        · rfl
        · exact absurd h hg
      simp [processInvocations, hg']

theorem resizeList_length (l : List Nat) (n : Nat) : (resizeList l n).length = n := by
  simp [resizeList]
  omega

/- Concrete data used by the witness theorems. -/

def st0 : FactoryState :=
  { transactionId_ := 7, transactionMap_ := fun _ => none }

def svcAsync : Service := { asynchronous := true }

def svcSync : Service := { asynchronous := false }

def reqSession : Request := { requestHandle := 42, targets := [10, 11, 12], kind := RequestKind.session }

def reqSubscription : Request := { requestHandle := 43, targets := [10], kind := RequestKind.subscription }

def invA : Invocation := { sessionSettings := 0, transactionId := none, sessionInformation := none }

def sessConnected : Session := { clientConnectionId := 1, isConnected := true, sessionInformation := 5 }

def sessDisconnected : Session := { clientConnectionId := 2, isConnected := false, sessionInformation := 6 }

/-- An environment in which everything succeeds and the factory builds a
single invocation. -/
def envHappy : Env :=
  { create := (StatusCode.Good, [("A", invA)]),
    acquireSession := fun _ _ => (StatusCode.Good, sessConnected),
    invokeService := fun _ _ _ => StatusCode.Good,
    copyToResult := fun _ _ => (StatusCode.Good, [(0, 100), (1, 101), (2, 102)]) }

/-- An environment in which the factory builds two invocations (fan-out). -/
def envFanOut : Env :=
  { create := (StatusCode.Good, [("A", invA), ("B", invA)]),
    acquireSession := fun _ _ => (StatusCode.Good, sessConnected),
    invokeService := fun _ _ _ => StatusCode.Good,
    copyToResult := fun _ _ => (StatusCode.Good, []) }

/-- An environment in which session acquisition fails. -/
def envAcquireFails : Env :=
  { create := (StatusCode.Good, [("A", invA), ("B", invA)]),
    acquireSession := fun _ _ => (StatusCode.OtherError 9, sessConnected),
    invokeService := fun _ _ _ => StatusCode.Good,
    copyToResult := fun _ _ => (StatusCode.Good, []) }

/-- An environment in which the acquired session is not connected. -/
def envDisconnected : Env :=
  { create := (StatusCode.Good, [("A", invA)]),
    acquireSession := fun _ _ => (StatusCode.Good, sessDisconnected),
    invokeService := fun _ _ _ => StatusCode.Good,
    copyToResult := fun _ _ => (StatusCode.Good, []) }

/-- A session table in which every activity count is zero. -/
def tblZero : SessionTable :=
  { sessionMap_ := fun _ => true, activityMap_ := fun _ => 0 }

/- Claim theorems. -/

/-- C1: for an asynchronous session-level service, if the invocation factory
succeeds and produces more than one invocation, invokeRequest returns an
UnsupportedError status and the per-invocation loop body never runs, so no
invocation is forwarded to any session (the event trace is empty). -/
theorem claim_C1 (env : Env) (service : Service) (request : Request)
    (result0 : List Nat) (st : FactoryState)
    (hk : request.kind = RequestKind.session)
    (ha : service.asynchronous = true)
    (hc : env.create.1.isGood = true)
    (hn : 1 < env.create.2.length) :
    (invokeRequest env service request result0 st).ret = StatusCode.UnsupportedError
      ∧ (invokeRequest env service request result0 st).events = [] := by
  unfold invokeRequest
  dsimp only
  rw [if_pos ⟨hc, ha, hn⟩]
  rw [processInvocations_stops env service _ _ _ _ _ _ isGood_unsupported]
  exact ⟨rfl, rfl⟩

/-- C1 witness: two invocations for an asynchronous session request. -/
theorem claim_C1_witness :
    (invokeRequest envFanOut svcAsync reqSession [] st0).ret = StatusCode.UnsupportedError
      ∧ (invokeRequest envFanOut svcAsync reqSession [] st0).events = [] :=
  claim_C1 envFanOut svcAsync reqSession [] st0 rfl rfl (by decide) (by decide)

/-- C4: the first invocation that yields a non-good status terminates the
per-invocation loop: if processing a prefix of the invocation list ends with
a non-good status, processing the whole list produces exactly the same
status, result targets and event trace, so the remaining invocations are
never stamped, acquired or forwarded. -/
theorem claim_C4 (env : Env) (service : Service) (handleStored : Bool)
    (tid : TransactionId) (pre post : List (ServerUri × Invocation))
    (ret : StatusCode) (targets : List Nat) (evs : List Event)
    (h : (processInvocations env service handleStored tid pre ret targets evs).1.isGood = false) :
    processInvocations env service handleStored tid (pre ++ post) ret targets evs
      = processInvocations env service handleStored tid pre ret targets evs := by
  induction pre generalizing ret targets evs with
  | nil =>
    simp only [processInvocations] at h
    simp only [List.nil_append, processInvocations]
    exact processInvocations_stops env service handleStored tid post ret targets evs h
  | cons hd rest ih =>
    obtain ⟨uri, inv⟩ := hd
    by_cases hg : ret.isGood = true
    · simp only [processInvocations, hg, if_true] at h ⊢
      exact ih _ _ _ h
    · have hg' : ret.isGood = false := by
        cases hb : ret.isGood
        · rfl
        · exact absurd hb hg
      simp only [List.cons_append, processInvocations, hg']
      simp

/-- C4 witness: the first of two invocations fails to acquire a session; the
second produces nothing. -/
theorem claim_C4_witness :
    processInvocations envAcquireFails svcSync false 0 [("A", invA), ("B", invA)]
        StatusCode.Good [0] []
      = processInvocations envAcquireFails svcSync false 0 [("A", invA)]
          StatusCode.Good [0] [] :=
  claim_C4 envAcquireFails svcSync false 0 [("A", invA)] [("B", invA)]
    StatusCode.Good [0] [] (by decide)

/-- C9: on every return of invokeRequest, result.targets has exactly as many
elements as request.targets: the resize at sessionfactory.h line 231 happens
before any failure point and the loop only overwrites elements in place. -/
theorem claim_C9 (env : Env) (service : Service) (request : Request)
    (result0 : List Nat) (st : FactoryState) :
    (invokeRequest env service request result0 st).resultTargets.length
      = request.targets.length := by
  unfold invokeRequest
  dsimp only
  rw [processInvocations_length]
  exact resizeList_length result0 request.targets.length

/-- C10: for a synchronous service an entire invokeRequest call leaves the
factory transaction state (map and id counter) unchanged: no binding is
inserted because storeRequestHandleIfNeeded returns false without touching
the map, and none is erased because the rollback is guarded by the stored
flag. -/
theorem claim_C10 (env : Env) (service : Service) (request : Request)
    (result0 : List Nat) (st : FactoryState)
    (ha : service.asynchronous = false) :
    (invokeRequest env service request result0 st).state = st := by
  unfold invokeRequest
  dsimp only
  cases hk : request.kind with
  | session =>
    simp [storeHandleDispatch, hk, storeRequestHandleIfNeeded, ha]
  | subscription =>
    simp [storeHandleDispatch, hk, storeRequestHandleIfNeededSubscription]

/-- C10 witness: a synchronous request through the happy-path environment
leaves the factory state untouched. -/
theorem claim_C10_witness :
    (invokeRequest envHappy svcSync reqSession [] st0).state = st0 :=
  claim_C10 envHappy svcSync reqSession [] st0 rfl

/-- C2: for an asynchronous session-level request, whenever invokeRequest
returns a non-good status, the transaction map at return contains no entry
for the allocated transaction id: the rollback at sessionfactory.h lines
315-323 erases the binding. -/
theorem claim_C2 (env : Env) (service : Service) (request : Request)
    (result0 : List Nat) (st : FactoryState)
    (hk : request.kind = RequestKind.session)
    (ha : service.asynchronous = true)
    (hr : (invokeRequest env service request result0 st).ret.isNotGood = true) :
    (invokeRequest env service request result0 st).state.transactionMap_
      ((invokeRequest env service request result0 st).transactionId) = none := by
  unfold invokeRequest at hr ⊢
  dsimp only at hr ⊢
  simp only [storeHandleDispatch, hk, storeRequestHandleIfNeeded, ha, if_true, true_and,
    getNewTransactionId] at hr ⊢
  simp [hr, mapErase]

/-- C2 witness: an asynchronous session request refused for fan-out leaves no
binding for the allocated id. -/
theorem claim_C2_witness :
    (invokeRequest envFanOut svcAsync reqSession [] st0).state.transactionMap_
      ((invokeRequest envFanOut svcAsync reqSession [] st0).transactionId) = none :=
  claim_C2 envFanOut svcAsync reqSession [] st0 rfl rfl (by decide)

/-- C8: for an asynchronous session-level request for which invokeRequest
returns a good status, the transaction map at return still contains the
allocated transaction id, mapped to request.requestHandle(): the rollback
erase is guarded by ret.isNotGood() and the per-invocation loop never touches
the transaction map. -/
theorem claim_C8 (env : Env) (service : Service) (request : Request)
    (result0 : List Nat) (st : FactoryState)
    (hk : request.kind = RequestKind.session)
    (ha : service.asynchronous = true)
    (hr : (invokeRequest env service request result0 st).ret.isGood = true) :
    (invokeRequest env service request result0 st).state.transactionMap_
      ((invokeRequest env service request result0 st).transactionId)
      = some request.requestHandle := by
  unfold invokeRequest at hr ⊢
  dsimp only at hr ⊢
  simp only [storeHandleDispatch, hk, storeRequestHandleIfNeeded, ha, if_true, true_and,
    getNewTransactionId] at hr ⊢
  simp [isNotGood_eq, hr, mapInsert]

/-- C8 witness: the happy-path asynchronous request leaves transaction id 7
bound to request handle 42. -/
theorem claim_C8_witness :
    (invokeRequest envHappy svcAsync reqSession [] st0).state.transactionMap_
      ((invokeRequest envHappy svcAsync reqSession [] st0).transactionId)
      = some reqSession.requestHandle :=
  claim_C8 envHappy svcAsync reqSession [] st0 rfl rfl (by decide)

/-- C3: a fresh transaction id is allocated and bound to the request handle
if and only if the request is a session-level request of an asynchronous
service; in that case the allocated id is the current counter value, the map
gains exactly that binding, and the counter is incremented (so the id is
never allocated twice); otherwise the factory state is untouched; and
invokeRequest stores a handle exactly when this dispatch says so.  For every
subscription-level request the dispatch selects the BaseSubscriptionRequest
overload, which stores nothing regardless of asynchrony. -/
theorem claim_C3 (service : Service) (request : Request) (st : FactoryState) :
    ((storeHandleDispatch service request st).1 = true
        ↔ (request.kind = RequestKind.session ∧ service.asynchronous = true))
      ∧ ((storeHandleDispatch service request st).1 = true →
          (storeHandleDispatch service request st).2.1 = st.transactionId_
            ∧ (storeHandleDispatch service request st).2.2.transactionMap_
                = mapInsert st.transactionMap_ st.transactionId_ request.requestHandle
            ∧ (storeHandleDispatch service request st).2.2.transactionId_
                = st.transactionId_ + 1)
      ∧ ((storeHandleDispatch service request st).1 = false
          → (storeHandleDispatch service request st).2.2 = st)
      ∧ (∀ (env : Env) (result0 : List Nat),
          (invokeRequest env service request result0 st).handleStored
            = (storeHandleDispatch service request st).1) := by
  cases hk : request.kind <;> cases ha : service.asynchronous <;>
    simp [storeHandleDispatch, storeRequestHandleIfNeeded,
      storeRequestHandleIfNeededSubscription, getNewTransactionId, ha, hk, invokeRequest]

/-- C3 witness: for the asynchronous session request, the binding and the
counter increment are exactly as stated. -/
theorem claim_C3_witness :
    (storeHandleDispatch svcAsync reqSession st0).2.1 = st0.transactionId_
      ∧ (storeHandleDispatch svcAsync reqSession st0).2.2.transactionMap_
          = mapInsert st0.transactionMap_ st0.transactionId_ reqSession.requestHandle
      ∧ (storeHandleDispatch svcAsync reqSession st0).2.2.transactionId_
          = st0.transactionId_ + 1 :=
  (claim_C3 svcAsync reqSession st0).2.1 (by decide)

/-- C5: activity counts never go negative (they are modelled as Nat, matching
the unsigned uint32_t of the source, and release never wraps): releasing a
session always yields an activity count equal to the truncated predecessor of
the old one, and a release of a session whose count is already zero is
reported as a ReleaseUnderflowError with the whole table left unchanged. -/
theorem claim_C5 (tbl : SessionTable) (id : ClientConnectionId) (allow : Bool) :
    ((releaseSession tbl id allow).2.activityMap_ id = tbl.activityMap_ id - 1)
      ∧ (tbl.activityMap_ id = 0 →
          (releaseSession tbl id allow).1 = StatusCode.ReleaseUnderflowError
            ∧ (releaseSession tbl id allow).2 = tbl) := by
  unfold releaseSession
  dsimp only
  by_cases h : tbl.activityMap_ id = 0
  · simp [h]
  · simp [h]

/-- C5 witness: releasing a session whose activity count is zero reports
ReleaseUnderflowError and changes nothing. -/
theorem claim_C5_witness :
    (releaseSession tblZero 3 true).1 = StatusCode.ReleaseUnderflowError
      ∧ (releaseSession tblZero 3 true).2 = tblZero :=
  (claim_C5 tblZero 3 true).2 rfl

/-- C6: in one iteration of the per-invocation loop, when session acquisition
succeeds, a connected session receives the invocation through its service
entry point (a forwarded event is emitted), while a disconnected session is
never invoked and the iteration status is set to ConnectionError
(sessionfactory.h lines 291-300). -/
theorem claim_C6 (env : Env) (service : Service) (handleStored : Bool)
    (tid : TransactionId) (uri : ServerUri) (inv : Invocation) (targets : List Nat)
    (aSt : StatusCode) (sess : Session)
    (hacq : env.acquireSession uri (stampIfStored handleStored tid inv).sessionSettings
              = (aSt, sess))
    (hgood : aSt.isGood = true) :
    (sess.isConnected = true →
        Event.forwarded uri ∈ (processOne env service handleStored tid uri inv targets).2.2)
      ∧ (sess.isConnected = false →
          Event.forwarded uri ∉ (processOne env service handleStored tid uri inv targets).2.2
            ∧ (processOne env service handleStored tid uri inv targets).1
                = StatusCode.ConnectionError) := by
  unfold processOne
  dsimp only
  rw [hacq]
  dsimp only
  refine ⟨fun hc => ?_, fun hc => ?_⟩ <;>
    simp only [hgood, hc] <;> split_ifs <;> simp_all

/-- C6 witness: with a connected session the invocation is forwarded. -/
theorem claim_C6_witness :
    Event.forwarded "A" ∈ (processOne envHappy svcSync false 0 "A" invA [0, 0, 0]).2.2 :=
  (claim_C6 envHappy svcSync false 0 "A" invA [0, 0, 0] StatusCode.Good sessConnected
    rfl rfl).1 rfl

/-- C7: in one iteration of the per-invocation loop, the invocation's data is
copied into the result (copyToResult is called) if and only if the service is
synchronous and the status so far is good, i.e. acquisition succeeded, the
session was connected and the forwarded invocation returned a good status
(sessionfactory.h lines 302-307); in particular, for asynchronous services no
invocation data is ever copied into the result synchronously. -/
theorem claim_C7 (env : Env) (service : Service) (handleStored : Bool)
    (tid : TransactionId) (uri : ServerUri) (inv : Invocation) (targets : List Nat)
    (aSt : StatusCode) (sess : Session)
    (hacq : env.acquireSession uri (stampIfStored handleStored tid inv).sessionSettings
              = (aSt, sess)) :
    Event.copied uri ∈ (processOne env service handleStored tid uri inv targets).2.2
      ↔ (service.asynchronous = false
          ∧ aSt.isGood = true
          ∧ sess.isConnected = true
          ∧ (env.invokeService uri sess
              (withSessionInfo sess (stampIfStored handleStored tid inv))).isGood = true) := by
  unfold processOne
  dsimp only
  rw [hacq]
  dsimp only
  split_ifs <;> simp_all

/-- C7 witness: a synchronous happy-path iteration copies the invocation data
into the result. -/
theorem claim_C7_witness :
    Event.copied "A" ∈ (processOne envHappy svcSync false 0 "A" invA [0, 0, 0]).2.2 :=
  (claim_C7 envHappy svcSync false 0 "A" invA [0, 0, 0] StatusCode.Good sessConnected
    rfl).mpr (by decide)

end Uaf
